import Mathlib

/-!
Verification of `blade-graphics/src/util.rs`: the texture-format capability
table, the dispatch sizer, and the cause-chain printer, embedded shallowly.
Machine integers (`u32`) are modelled as `Nat` with explicit reduction
modulo `2 ^ 32` where overflow matters; the fallible division in the
dispatch sizer returns `Option`; the warn-level log side effect of
`block_info` is made explicit as a list of emitted messages.
-/

namespace Blade

/-- The closed texture-format enum, with exactly the variants matched
exhaustively in `util.rs` (`block_info`, `is_srgb`, `depth_stencil_color`,
`float_int_uint`). -/
inductive TextureFormat where
  | R8Unorm
  | Rg8Unorm
  | Rg8Snorm
  | Rgba8Unorm
  | Rgba8UnormSrgb
  | Bgra8Unorm
  | Bgra8UnormSrgb
  | Rgba8Snorm
  | R16Float
  | Rg16Float
  | Rgba16Float
  | R32Float
  | Rg32Float
  | Rgba32Float
  | R32Uint
  | Rg32Uint
  | Rgba32Uint
  | Depth32Float
  | Depth32FloatStencil8Uint
  | Stencil8Uint
  | Bc1Unorm
  | Bc1UnormSrgb
  | Bc2Unorm
  | Bc2UnormSrgb
  | Bc3Unorm
  | Bc3UnormSrgb
  | Bc4Unorm
  | Bc4Snorm
  | Bc5Unorm
  | Bc5Snorm
  | Bc6hUfloat
  | Bc6hFloat
  | Bc7Unorm
  | Bc7UnormSrgb
  | Rgb10a2Unorm
  | Rg11b10Ufloat
  | Rgb9e5Ufloat
  deriving DecidableEq, Repr, Fintype

/-- Modelled from the spec: `TexelBlockInfo` is the derived description of a
format storage granularity, with `dimensions` (width, height) in texels per
encoded block and `size` in bytes per block (a `u8` in the source). -/
structure TexelBlockInfo where
  dimensions : Nat × Nat
  size : Nat
  deriving DecidableEq, Repr

/-- Modelled from the spec: `TexelAspects` is a bit-flag set over
COLOR, DEPTH, STENCIL, FLOAT, INT, UINT, SRGB; each flag is one field. -/
structure TexelAspects where
  color : Bool
  depth : Bool
  stencil : Bool
  float : Bool
  int : Bool
  uint : Bool
  srgb : Bool
  deriving DecidableEq, Repr

namespace TexelAspects

def empty : TexelAspects := ⟨false, false, false, false, false, false, false⟩

def COLOR : TexelAspects := ⟨true, false, false, false, false, false, false⟩

def DEPTH : TexelAspects := ⟨false, true, false, false, false, false, false⟩

def STENCIL : TexelAspects := ⟨false, false, true, false, false, false, false⟩

def FLOAT : TexelAspects := ⟨false, false, false, true, false, false, false⟩

def INT : TexelAspects := ⟨false, false, false, false, true, false, false⟩

def UINT : TexelAspects := ⟨false, false, false, false, false, true, false⟩

def SRGB : TexelAspects := ⟨false, false, false, false, false, false, true⟩

/-- Bitwise union of two flag sets. -/
def union (a b : TexelAspects) : TexelAspects :=
  ⟨a.color || b.color, a.depth || b.depth, a.stencil || b.stencil,
   a.float || b.float, a.int || b.int, a.uint || b.uint, a.srgb || b.srgb⟩

/-- `a.contains b`: every flag set in `b` is set in `a`. -/
def contains (a b : TexelAspects) : Bool :=
  (!b.color || a.color) && (!b.depth || a.depth) && (!b.stencil || a.stencil) &&
  (!b.float || a.float) && (!b.int || a.int) && (!b.uint || a.uint) &&
  (!b.srgb || a.srgb)

end TexelAspects

namespace TextureFormat

/-- `uncompressed(size)` helper from `block_info`. -/
def uncompressed (size : Nat) : TexelBlockInfo := ⟨(1, 1), size⟩

/-- `cx_bc(size)` helper from `block_info`. -/
def cx_bc (size : Nat) : TexelBlockInfo := ⟨(4, 4), size⟩

/-- `block_info` with its side effect made explicit: the second component is
the list of warn-level log messages emitted during the call (the source
calls `log::warn!` in exactly the two depth/stencil arms). -/
def block_info_logged : TextureFormat → TexelBlockInfo × List String
  | .R8Unorm => (uncompressed 1, [])
  | .Rg8Unorm => (uncompressed 2, [])
  | .Rg8Snorm => (uncompressed 2, [])
  | .Rgba8Unorm => (uncompressed 4, [])
  | .Rgba8UnormSrgb => (uncompressed 4, [])
  | .Bgra8Unorm => (uncompressed 4, [])
  | .Bgra8UnormSrgb => (uncompressed 4, [])
  | .Rgba8Snorm => (uncompressed 4, [])
  | .R16Float => (uncompressed 2, [])
  | .Rg16Float => (uncompressed 4, [])
  | .Rgba16Float => (uncompressed 8, [])
  | .R32Float => (uncompressed 4, [])
  | .Rg32Float => (uncompressed 8, [])
  | .Rgba32Float => (uncompressed 16, [])
  | .R32Uint => (uncompressed 4, [])
  | .Rg32Uint => (uncompressed 8, [])
  | .Rgba32Uint => (uncompressed 16, [])
  | .Depth32Float => (uncompressed 4, [])
  | .Depth32FloatStencil8Uint =>
      (uncompressed 5,
       ["Requested block_info on depth-stencil format, information most likely incorrect"])
  | .Stencil8Uint =>
      (uncompressed 1,
       ["Requested block_info on stencil format, information most likely incorrect"])
  | .Bc1Unorm => (cx_bc 8, [])
  | .Bc1UnormSrgb => (cx_bc 8, [])
  | .Bc2Unorm => (cx_bc 16, [])
  | .Bc2UnormSrgb => (cx_bc 16, [])
  | .Bc3Unorm => (cx_bc 16, [])
  | .Bc3UnormSrgb => (cx_bc 16, [])
  | .Bc4Unorm => (cx_bc 8, [])
  | .Bc4Snorm => (cx_bc 8, [])
  | .Bc5Unorm => (cx_bc 16, [])
  | .Bc5Snorm => (cx_bc 16, [])
  | .Bc6hUfloat => (cx_bc 16, [])
  | .Bc6hFloat => (cx_bc 16, [])
  | .Bc7Unorm => (cx_bc 16, [])
  | .Bc7UnormSrgb => (cx_bc 16, [])
  | .Rgb10a2Unorm => (uncompressed 4, [])
  | .Rg11b10Ufloat => (uncompressed 4, [])
  | .Rgb9e5Ufloat => (uncompressed 4, [])

/-- The returned value of `block_info`, without the logging effect. -/
def block_info (f : TextureFormat) : TexelBlockInfo := (block_info_logged f).1

/-- `is_srgb` from the source, arm for arm. -/
def is_srgb : TextureFormat → Bool
  | .R8Unorm | .Rg8Unorm | .Rg8Snorm | .Rgba8Unorm | .Bgra8Unorm | .Rgba8Snorm
  | .R16Float | .Rg16Float | .Rgba16Float | .R32Float | .Rg32Float | .Rgba32Float
  | .R32Uint | .Rg32Uint | .Rgba32Uint
  | .Depth32Float | .Depth32FloatStencil8Uint | .Stencil8Uint
  | .Bc1Unorm | .Bc2Unorm | .Bc3Unorm | .Bc4Unorm | .Bc4Snorm | .Bc5Unorm
  | .Bc5Snorm | .Bc6hUfloat | .Bc6hFloat | .Bc7Unorm
  | .Rgb10a2Unorm | .Rg11b10Ufloat | .Rgb9e5Ufloat => false
  | .Bc7UnormSrgb | .Rgba8UnormSrgb | .Bgra8UnormSrgb
  | .Bc1UnormSrgb | .Bc2UnormSrgb | .Bc3UnormSrgb => true

/-- `depth_stencil_color` from the source: the first of the three masks. -/
def depth_stencil_color : TextureFormat → TexelAspects
  | .Depth32Float => TexelAspects.DEPTH
  | .Depth32FloatStencil8Uint => TexelAspects.DEPTH.union TexelAspects.STENCIL
  | .Stencil8Uint => TexelAspects.STENCIL
  | _ => TexelAspects.COLOR

/-- `float_int_uint` from the source, arm for arm (note: the source puts the
`*32Uint`, `Stencil8Uint` and the Snorm formats under INT, and the 8-bit and
BC Unorm formats under UINT). -/
def float_int_uint : TextureFormat → TexelAspects
  | .Rg8Snorm | .Rgba8Snorm | .R32Uint | .Rg32Uint | .Rgba32Uint
  | .Stencil8Uint | .Bc4Snorm | .Bc5Snorm => TexelAspects.INT
  | .R8Unorm | .Rg8Unorm | .Rgba8Unorm | .Rgba8UnormSrgb
  | .Bgra8Unorm | .Bgra8UnormSrgb
  | .Bc1Unorm | .Bc1UnormSrgb | .Bc2Unorm | .Bc2UnormSrgb
  | .Bc3Unorm | .Bc3UnormSrgb | .Bc4Unorm | .Bc5Unorm
  | .Bc7Unorm | .Bc7UnormSrgb => TexelAspects.UINT
  | .R16Float | .Rg16Float | .Rgba16Float | .R32Float | .Rg32Float
  | .Rgba32Float | .Depth32Float | .Depth32FloatStencil8Uint
  | .Bc6hUfloat | .Bc6hFloat
  | .Rgb10a2Unorm | .Rg11b10Ufloat | .Rgb9e5Ufloat => TexelAspects.FLOAT

/-- `aspects` from the source: union of the three independent masks. -/
def aspects (f : TextureFormat) : TexelAspects :=
  let a0 := TexelAspects.empty
  let a1 := a0.union f.depth_stencil_color
  let a2 := a1.union f.float_int_uint
  if f.is_srgb then a2.union TexelAspects.SRGB else a2

end TextureFormat

/-- Modelled from the spec: `Extent` is three unsigned dimensions
(width, height, depth), each a `u32` value. -/
structure Extent where
  width : Nat
  height : Nat
  depth : Nat
  deriving DecidableEq, Repr

/-- One axis of `get_dispatch_for`: `(extent_axis + wg - 1) / wg` in `u32`
arithmetic. The wrapping add and wrapping subtract-one compose into one
reduction modulo `2 ^ 32`; division by a zero workgroup size faults in the
source (integer division by zero), modelled as `none`. -/
def dispatch_axis (e wg : Nat) : Option Nat :=
  if wg = 0 then none
  else some (((e + wg + (2 ^ 32 - 1)) % 2 ^ 32) / wg)

/-- `get_dispatch_for` from the source, with the pipeline collaborator
replaced by its only contribution, the workgroup size triple. -/
def get_dispatch_for (wg_size : Nat × Nat × Nat) (extent : Extent) :
    Option (Nat × Nat × Nat) :=
  (dispatch_axis extent.width wg_size.1).bind fun c1 =>
    (dispatch_axis extent.height wg_size.2.1).bind fun c2 =>
      (dispatch_axis extent.depth wg_size.2.2).map fun c3 => (c1, c2, c3)

/-- An error value with display text and an optional underlying cause, the
shape `print_err` consumes through the `Error` trait (`source()` returns the
optional cause). -/
inductive ErrorValue where
  | leaf (display : String)
  | node (display : String) (cause : ErrorValue)
  deriving DecidableEq, Repr

namespace ErrorValue

/-- The display text of the error (`{}` formatting). -/
def display : ErrorValue → String
  | .leaf d => d
  | .node d _ => d

/-- The `source()` accessor: the optional underlying cause. -/
def source : ErrorValue → Option ErrorValue
  | .leaf _ => none
  | .node _ c => some c

end ErrorValue

/-- The `while let Some(source) = e` loop of `print_err`: one line
`"\t{cause}\n"` per cause, outer to innermost. -/
def chain_lines : ErrorValue → String
  | .leaf _ => ""
  | .node _ c => "\t" ++ c.display ++ "\n" ++ chain_lines c

/-- `print_err` from the source, with the bytes written to stderr collected
into the returned string: the display text, then `": "` and a newline when a
cause follows (plain newline otherwise), then the cause lines. -/
def print_err (e : ErrorValue) : String :=
  e.display ++ (if (e.source).isSome then ": \n" else "\n") ++ chain_lines e

/-! Helper lemmas about the dispatch arithmetic. -/

theorem dispatch_axis_some (e w : Nat) (hw : 0 < w) :
    dispatch_axis e w = some ((e + w + (2 ^ 32 - 1)) % 2 ^ 32 / w) := by
  simp [dispatch_axis, Nat.pos_iff_ne_zero.mp hw]

theorem div_mul_lower (a w : Nat) (hw : 0 < w) : a < a / w * w + w := by
  conv_lhs => rw [← Nat.div_add_mod a w, Nat.mul_comm]
  exact Nat.add_lt_add_left (Nat.mod_lt _ hw) _

/-- When the `u32` numerator does not wrap, one dispatch axis is the exact
ceiling `(e + w - 1) / w`, which covers `e` and is minimal. -/
theorem dispatch_axis_covers (e w : Nat) (hw : 0 < w) (hnw : e + w ≤ 2 ^ 32) :
    dispatch_axis e w = some ((e + w - 1) / w) ∧
    e ≤ (e + w - 1) / w * w ∧ (((e + w - 1) / w : Nat) : ℤ) * w - w < e := by
  have hnum : (e + w + (2 ^ 32 - 1)) % 2 ^ 32 = e + w - 1 := by omega
  have hlow := div_mul_lower (e + w - 1) w hw
  have hup : (e + w - 1) / w * w ≤ e + w - 1 := Nat.div_mul_le_self _ _
  refine ⟨?_, ?_, ?_⟩
  · rw [dispatch_axis_some e w hw, hnum]
  · omega
  · have h1 : (e + w - 1) / w * w < e + w := by omega
    have h2 : (((e + w - 1) / w : Nat) : ℤ) * w < (e : ℤ) + w := by exact_mod_cast h1
    linarith

theorem dispatch_axis_zero_extent (w : Nat) (hw : 0 < w) (hwu : w < 2 ^ 32) :
    dispatch_axis 0 w = some 0 := by
  have hnum : (0 + w + (2 ^ 32 - 1)) % 2 ^ 32 = w - 1 := by omega
  rw [dispatch_axis_some 0 w hw, hnum, Nat.div_eq_of_lt (by omega)]

/-! The claims. -/

/-- C1 counterexample: at extent width `2 ^ 32 - 1` with workgroup size
`[8, 8, 1]` the `u32` numerator wraps, `get_dispatch_for` returns count 0 on
the first axis, and `0 * 8` does not cover the extent — so the claim as
stated (covering for every extent whenever all workgroup sizes are
positive) is false. -/
theorem get_dispatch_for_wrap_counterexample :
    get_dispatch_for (8, 8, 1) ⟨2 ^ 32 - 1, 1, 1⟩ = some (0, 1, 1) ∧
    0 * 8 < 2 ^ 32 - 1 := by decide

/-- C1 (amended): for every extent and workgroup size with
`workgroup_size[i] > 0` and `extent[i] + workgroup_size[i] ≤ 2 ^ 32` on all
three axes (so the `u32` numerator does not wrap), the returned counts
satisfy `count[i] * workgroup_size[i] ≥ extent[i]` and
`(count[i] - 1) * workgroup_size[i] < extent[i]`. -/
theorem get_dispatch_for_covers_and_minimal
    (w1 w2 w3 e1 e2 e3 : Nat)
    (hw1 : 0 < w1) (hw2 : 0 < w2) (hw3 : 0 < w3)
    (h1 : e1 + w1 ≤ 2 ^ 32) (h2 : e2 + w2 ≤ 2 ^ 32) (h3 : e3 + w3 ≤ 2 ^ 32) :
    ∃ c1 c2 c3, get_dispatch_for (w1, w2, w3) ⟨e1, e2, e3⟩ = some (c1, c2, c3) ∧
      (e1 ≤ c1 * w1 ∧ ((c1 : ℤ) - 1) * w1 < e1) ∧
      (e2 ≤ c2 * w2 ∧ ((c2 : ℤ) - 1) * w2 < e2) ∧
      (e3 ≤ c3 * w3 ∧ ((c3 : ℤ) - 1) * w3 < e3) := by
  obtain ⟨ha1, hc1, hm1⟩ := dispatch_axis_covers e1 w1 hw1 h1
  obtain ⟨ha2, hc2, hm2⟩ := dispatch_axis_covers e2 w2 hw2 h2
  obtain ⟨ha3, hc3, hm3⟩ := dispatch_axis_covers e3 w3 hw3 h3
  refine ⟨(e1 + w1 - 1) / w1, (e2 + w2 - 1) / w2, (e3 + w3 - 1) / w3,
    ?_, ⟨hc1, by linarith⟩, ⟨hc2, by linarith⟩, ⟨hc3, by linarith⟩⟩
  simp [get_dispatch_for, ha1, ha2, ha3]

/-- C1 witness: the amended theorem instantiated at workgroup size
`[8, 8, 1]` and extent `(17, 8, 1)`. -/
theorem get_dispatch_for_covers_and_minimal_witness :
    ∃ c1 c2 c3, get_dispatch_for (8, 8, 1) ⟨17, 8, 1⟩ = some (c1, c2, c3) ∧
      (17 ≤ c1 * 8 ∧ ((c1 : ℤ) - 1) * 8 < 17) ∧
      (8 ≤ c2 * 8 ∧ ((c2 : ℤ) - 1) * 8 < 8) ∧
      (1 ≤ c3 * 1 ∧ ((c3 : ℤ) - 1) * 1 < 1) :=
  get_dispatch_for_covers_and_minimal 8 8 1 17 8 1 (by decide) (by decide)
    (by decide) (by decide) (by decide) (by decide)

/-- C6: with workgroup size `[8, 8, 1]`, `get_dispatch_for` returns
`[3, 1, 1]` for extent `(17, 8, 1)`, `[2, 2, 1]` for `(16, 16, 1)` and
`[0, 1, 1]` for `(0, 5, 1)`; and whenever an extent axis is 0 and the
workgroup sizes are positive `u32` values, the count on that axis is 0. -/
theorem get_dispatch_for_examples_and_zero_extent :
    (get_dispatch_for (8, 8, 1) ⟨17, 8, 1⟩ = some (3, 1, 1) ∧
     get_dispatch_for (8, 8, 1) ⟨16, 16, 1⟩ = some (2, 2, 1) ∧
     get_dispatch_for (8, 8, 1) ⟨0, 5, 1⟩ = some (0, 1, 1)) ∧
    ∀ w1 w2 w3 e1 e2 e3 : Nat,
      0 < w1 → w1 < 2 ^ 32 → 0 < w2 → w2 < 2 ^ 32 → 0 < w3 → w3 < 2 ^ 32 →
      ∃ c1 c2 c3, get_dispatch_for (w1, w2, w3) ⟨e1, e2, e3⟩ = some (c1, c2, c3) ∧
        (e1 = 0 → c1 = 0) ∧ (e2 = 0 → c2 = 0) ∧ (e3 = 0 → c3 = 0) := by
  refine ⟨⟨by decide, by decide, by decide⟩, ?_⟩
  intro w1 w2 w3 e1 e2 e3 hw1 hw1u hw2 hw2u hw3 hw3u
  refine ⟨(e1 + w1 + (2 ^ 32 - 1)) % 2 ^ 32 / w1,
          (e2 + w2 + (2 ^ 32 - 1)) % 2 ^ 32 / w2,
          (e3 + w3 + (2 ^ 32 - 1)) % 2 ^ 32 / w3, ?_, ?_, ?_, ?_⟩
  · simp [get_dispatch_for, dispatch_axis_some _ _ hw1,
      dispatch_axis_some _ _ hw2, dispatch_axis_some _ _ hw3]
  · intro h
    subst h
    have := dispatch_axis_zero_extent w1 hw1 hw1u
    rw [dispatch_axis_some 0 w1 hw1] at this
    exact Option.some.inj this
  · intro h
    subst h
    have := dispatch_axis_zero_extent w2 hw2 hw2u
    rw [dispatch_axis_some 0 w2 hw2] at this
    exact Option.some.inj this
  · intro h
    subst h
    have := dispatch_axis_zero_extent w3 hw3 hw3u
    rw [dispatch_axis_some 0 w3 hw3] at this
    exact Option.some.inj this

/-- C6 witness: the theorem applied at workgroup size `[8, 8, 1]` and
extent `(0, 5, 1)`, discharging each hypothesis. -/
theorem get_dispatch_for_zero_extent_witness :
    ∃ c1 c2 c3, get_dispatch_for (8, 8, 1) ⟨0, 5, 1⟩ = some (c1, c2, c3) ∧
      (0 = 0 → c1 = 0) ∧ (5 = 0 → c2 = 0) ∧ (1 = 0 → c3 = 0) :=
  get_dispatch_for_examples_and_zero_extent.2 8 8 1 0 5 1 (by decide) (by decide)
    (by decide) (by decide) (by decide) (by decide)

/-- C8: a zero workgroup size on any axis makes `get_dispatch_for` fault
(integer division by zero in the source, `none` in the embedding) rather
than return a count array. -/
theorem get_dispatch_for_zero_wg_faults (w1 w2 w3 e1 e2 e3 : Nat)
    (h : w1 = 0 ∨ w2 = 0 ∨ w3 = 0) :
    get_dispatch_for (w1, w2, w3) ⟨e1, e2, e3⟩ = none := by
  rcases h with h | h | h <;> subst h
  · simp [get_dispatch_for, dispatch_axis]
  · cases hd : dispatch_axis e1 w1 <;>
      simp [get_dispatch_for, dispatch_axis, hd]
  · cases hd1 : dispatch_axis e1 w1 <;> cases hd2 : dispatch_axis e2 w2 <;>
      simp [get_dispatch_for, dispatch_axis, hd1, hd2]

/-- C8 witness: the theorem applied at workgroup size `[0, 8, 1]` and
extent `(5, 5, 5)`. -/
theorem get_dispatch_for_zero_wg_faults_witness :
    get_dispatch_for (0, 8, 1) ⟨5, 5, 5⟩ = none :=
  get_dispatch_for_zero_wg_faults 0 8 1 5 5 5 (Or.inl rfl)

/-- C10: whenever `extent[0] > 2 ^ 32 - workgroup_size[0]` (with all sizes
positive and the values in `u32` range), the numerator wraps modulo
`2 ^ 32` and the returned first-axis count does not cover the extent:
`count[0] * workgroup_size[0] < extent[0]`. -/
theorem get_dispatch_for_overflow_wraps
    (w1 w2 w3 e1 e2 e3 : Nat) (hw1 : 0 < w1) (hw2 : 0 < w2) (hw3 : 0 < w3)
    (hw1u : w1 < 2 ^ 32) (he1 : e1 < 2 ^ 32) (hbig : 2 ^ 32 - w1 < e1) :
    ∃ c1 c2 c3, get_dispatch_for (w1, w2, w3) ⟨e1, e2, e3⟩ = some (c1, c2, c3) ∧
      c1 * w1 < e1 := by
  have hnum : (e1 + w1 + (2 ^ 32 - 1)) % 2 ^ 32 = e1 + w1 - 1 - 2 ^ 32 := by
    omega
  have hz : (e1 + w1 - 1 - 2 ^ 32) / w1 = 0 := Nat.div_eq_of_lt (by omega)
  refine ⟨(e1 + w1 + (2 ^ 32 - 1)) % 2 ^ 32 / w1,
          (e2 + w2 + (2 ^ 32 - 1)) % 2 ^ 32 / w2,
          (e3 + w3 + (2 ^ 32 - 1)) % 2 ^ 32 / w3, ?_, ?_⟩
  · simp [get_dispatch_for, dispatch_axis_some _ _ hw1,
      dispatch_axis_some _ _ hw2, dispatch_axis_some _ _ hw3]
  · rw [hnum, hz, Nat.zero_mul]
    omega

/-- C10 witness: the theorem applied at workgroup size `[8, 8, 1]` and
extent `(2 ^ 32 - 1, 1, 1)`. -/
theorem get_dispatch_for_overflow_wraps_witness :
    ∃ c1 c2 c3, get_dispatch_for (8, 8, 1) ⟨2 ^ 32 - 1, 1, 1⟩ = some (c1, c2, c3) ∧
      c1 * 8 < 2 ^ 32 - 1 :=
  get_dispatch_for_overflow_wraps 8 8 1 (2 ^ 32 - 1) 1 1 (by decide) (by decide)
    (by decide) (by decide) (by decide) (by decide)

/-- C2 (code evaluation at the failing inputs): `float_int_uint` flags the
unsigned-integer storage formats `R32Uint` and `Stencil8Uint` with INT, not
UINT, and flags the normalized-unsigned format `R8Unorm` with UINT, not
FLOAT — contradicting the claimed sample-encoding classification (while
`Rgb10a2Unorm`, also normalized-unsigned, is flagged FLOAT, showing the
table is internally inconsistent). -/
theorem float_int_uint_divergence :
    TextureFormat.R32Uint.float_int_uint = TexelAspects.INT ∧
    TextureFormat.Stencil8Uint.float_int_uint = TexelAspects.INT ∧
    TextureFormat.R8Unorm.float_int_uint = TexelAspects.UINT ∧
    TextureFormat.Rgb10a2Unorm.float_int_uint = TexelAspects.FLOAT ∧
    (TextureFormat.R32Uint.aspects.contains TexelAspects.UINT = false) ∧
    (TextureFormat.R8Unorm.aspects.contains TexelAspects.FLOAT = false) := by
  decide

/-- C3: for every format, `aspects` contains exactly one of DEPTH, STENCIL,
COLOR — except `Depth32FloatStencil8Uint`, which contains DEPTH and STENCIL
and no COLOR — and exactly one of FLOAT, INT, UINT. -/
theorem aspects_flag_partition : ∀ f : TextureFormat,
    (if f = TextureFormat.Depth32FloatStencil8Uint then
      f.aspects.contains TexelAspects.DEPTH = true ∧
      f.aspects.contains TexelAspects.STENCIL = true ∧
      f.aspects.contains TexelAspects.COLOR = false
    else
      (f.aspects.contains TexelAspects.DEPTH).toNat +
      (f.aspects.contains TexelAspects.STENCIL).toNat +
      (f.aspects.contains TexelAspects.COLOR).toNat = 1) ∧
    (f.aspects.contains TexelAspects.FLOAT).toNat +
    (f.aspects.contains TexelAspects.INT).toNat +
    (f.aspects.contains TexelAspects.UINT).toNat = 1 := by decide

/-- C4: for every format, `block_info` reports dimensions `(1, 1)` or
`(4, 4)` and a positive size, and every BCn format reports `(4, 4)`. -/
theorem block_info_shape : ∀ f : TextureFormat,
    ((f.block_info.dimensions = (1, 1) ∨ f.block_info.dimensions = (4, 4)) ∧
     0 < f.block_info.size) ∧
    (f ∈ [TextureFormat.Bc1Unorm, TextureFormat.Bc1UnormSrgb,
          TextureFormat.Bc2Unorm, TextureFormat.Bc2UnormSrgb,
          TextureFormat.Bc3Unorm, TextureFormat.Bc3UnormSrgb,
          TextureFormat.Bc4Unorm, TextureFormat.Bc4Snorm,
          TextureFormat.Bc5Unorm, TextureFormat.Bc5Snorm,
          TextureFormat.Bc6hUfloat, TextureFormat.Bc6hFloat,
          TextureFormat.Bc7Unorm, TextureFormat.Bc7UnormSrgb] →
      f.block_info.dimensions = (4, 4)) := by decide

/-- C4 witness: the theorem applied at `Bc1Unorm`, discharging the BCn
membership hypothesis. -/
theorem block_info_shape_witness :
    TextureFormat.Bc1Unorm.block_info.dimensions = (4, 4) :=
  (block_info_shape TextureFormat.Bc1Unorm).2 (by decide)

/-- C5: `is_srgb` agrees with the SRGB flag of `aspects` on every format,
and is true exactly for the six sRGB-suffixed color formats. -/
theorem is_srgb_consistent : ∀ f : TextureFormat,
    f.is_srgb = f.aspects.contains TexelAspects.SRGB ∧
    (f.is_srgb = true ↔
      f ∈ [TextureFormat.Rgba8UnormSrgb, TextureFormat.Bgra8UnormSrgb,
           TextureFormat.Bc1UnormSrgb, TextureFormat.Bc2UnormSrgb,
           TextureFormat.Bc3UnormSrgb, TextureFormat.Bc7UnormSrgb]) := by decide

/-- C7: `block_info` returns an uncompressed block of size 5 for
`Depth32FloatStencil8Uint` and of size 1 for `Stencil8Uint`, emitting one
warn-level log message in each of these two cases, and emits no message on
any other format. -/
theorem block_info_warn_effects :
    TextureFormat.Depth32FloatStencil8Uint.block_info_logged =
      (⟨(1, 1), 5⟩,
       ["Requested block_info on depth-stencil format, information most likely incorrect"]) ∧
    TextureFormat.Stencil8Uint.block_info_logged =
      (⟨(1, 1), 1⟩,
       ["Requested block_info on stencil format, information most likely incorrect"]) ∧
    ∀ f : TextureFormat, f ≠ TextureFormat.Depth32FloatStencil8Uint →
      f ≠ TextureFormat.Stencil8Uint → (f.block_info_logged).2 = [] := by
  decide

/-- C7 witness: the theorem applied at `R8Unorm`, discharging both
disequality hypotheses. -/
theorem block_info_warn_effects_witness :
    (TextureFormat.R8Unorm.block_info_logged).2 = [] :=
  block_info_warn_effects.2.2 TextureFormat.R8Unorm (by decide) (by decide)

/-- C9: on an error with exactly two underlying causes, `print_err` writes
three lines — the display text followed by `": "`, then each cause on its
own line indented by one tab, outer to innermost — and on an error with no
cause it writes just the display text and a newline, with no colon. -/
theorem print_err_chain (d0 d1 d2 : String) :
    print_err (.node d0 (.node d1 (.leaf d2))) =
      d0 ++ ": \n" ++ "\t" ++ d1 ++ "\n" ++ "\t" ++ d2 ++ "\n" ∧
    print_err (.leaf d0) = d0 ++ "\n" := by
  constructor
  · apply String.ext
    simp [print_err, chain_lines, ErrorValue.display, ErrorValue.source,
      String.data_append]
  · apply String.ext
    simp [print_err, chain_lines, ErrorValue.display, ErrorValue.source,
      String.data_append]

end Blade
